import Mathlib

/-!
Verification of the cross-filter aggregation engine of the animal-shelter
dashboard repository.  The Python sources are embedded shallowly: a pandas
DataFrame becomes a `List Record`, per-column transforms of the loaders become
per-row functions, the Dash store quintuple becomes `SelectionState`, and the
click callbacks become pure state-update functions.  Every definition carries a
pointer to the file and lines of the source it embeds.
-/

/-- Model of a pandas timestamp as used by the loaders: the day number of the
date (for `.dt.days` arithmetic on differences) together with its calendar year
(for `.dt.year`). -/
structure Date where
  days : Int
  year : Int
deriving DecidableEq

/-- One normalized row of the loaded DataFrame, with the columns the engine
reads: `Animal Type`, `Intake Type`, `Outcome Type`, `Intake Date`,
`Outcome Date`, `intake_duration`, `outcome_is_alive`, `Intake Year`,
`Outcome Year`.  Missing dates (`NaT`) are `none`. -/
structure Record where
  animalType : String
  intakeType : String
  outcomeType : String
  intakeDate : Option Date
  outcomeDate : Option Date
  intake_duration : Int
  outcome_is_alive : Bool
  intakeYear : Option Int
  outcomeYear : Option Int
deriving DecidableEq

/-- `UNKNOWN` constant of both data_loader.py variants. -/
def UNKNOWN : String := "Unknown"

/-- `LIVE_OUTCOMES` from "app_cross_filter_state_mamagement_plotly copy/data_loader.py"
lines 8-14 (the same list appears in app_static_plotly/data_loader.py lines 9-15). -/
def LIVE_OUTCOMES : List String :=
  ["ADOPTION", "TRANSFER", "RETURN TO OWNER", "RTOS", "RELOCATE"]

/-- Python `str.strip()` on the character list: drop whitespace from both ends. -/
def stripChars (l : List Char) : List Char :=
  ((l.dropWhile Char.isWhitespace).reverse.dropWhile Char.isWhitespace).reverse

/-- Python `str.strip()` on a string (kernel-computable model of `.str.strip()`). -/
def stripString (s : String) : String := String.mk (stripChars s.data)

/-- `_normalize_text` of "app_cross_filter_state_mamagement_plotly copy/data_loader.py"
lines 17-20: cast to string and strip, replace empty/"nan"/"None" by missing,
fill missing with `UNKNOWN`.  A missing cell (pandas NA) is `none` here. -/
def normalize_text (v : Option String) : String :=
  match v with
  | none => UNKNOWN
  | some s =>
    let t := stripString s
    if t = "" ∨ t = "nan" ∨ t = "None" then UNKNOWN else t

/-- Copy-variant derivation of `outcome_is_alive` when the CSV has no such
column: "app_cross_filter_state_mamagement_plotly copy/data_loader.py" line 91,
`df["Outcome Type"].isin(LIVE_OUTCOMES)`. -/
def derive_is_alive (outcomeType : String) : Bool :=
  LIVE_OUTCOMES.contains outcomeType

/-- Sibling loader "app_cross_filter_state_mamagement_plotly/data_loader.py"
lines 47-48: when the CSV has no `outcome_is_alive` column the entire column is
set to `False`, whatever the outcome type is. -/
def derive_is_alive_v1 (_outcomeType : String) : Bool := false

/-- `intake_duration` of "app_cross_filter_state_mamagement_plotly copy/data_loader.py"
lines 77-81: `(Outcome Date - Intake Date).dt.days`, `fillna(0)`, then negative
values clamped to 0. -/
def intake_duration_of (intakeDate outcomeDate : Option Date) : Int :=
  let d : Int :=
    match intakeDate, outcomeDate with
    | some i, some o => o.days - i.days
    | _, _ => 0
  if d < 0 then 0 else d

/-- `intake_duration` of the top-level script app_cross_filter_state_mamagement_plotly.py
line 19: `(Outcome Date - Intake Date).dt.days.fillna(0)` with no negative clamp. -/
def intake_duration_main (intakeDate outcomeDate : Option Date) : Int :=
  match intakeDate, outcomeDate with
  | some i, some o => o.days - i.days
  | _, _ => 0

/-- `intake_duration` of app_static_plotly/data_loader.py lines 56-59:
`delta.dt.days` then `loc[< 0] = 0`; rows with a missing date keep `NaN`
(there is no `fillna`), modeled as `none`. -/
def intake_duration_static (intakeDate outcomeDate : Option Date) : Option Int :=
  match intakeDate, outcomeDate with
  | some i, some o => some (if o.days - i.days < 0 then 0 else o.days - i.days)
  | _, _ => none

/-- One raw CSV row as the loaders see it after `pd.read_csv` and
`pd.to_datetime(errors="coerce")`: category cells may be missing (`none`),
malformed dates have already been coerced to `none`, and
`outcome_is_alive` is the cell of the optional explicit column. -/
structure RawRow where
  animalType : Option String
  intakeType : Option String
  outcomeType : Option String
  intakeDate : Option Date
  outcomeDate : Option Date
  outcome_is_alive : Option Bool
deriving DecidableEq

/-- Row-wise embedding of the column transforms of `load_data` in
"app_cross_filter_state_mamagement_plotly copy/data_loader.py" lines 58-97:
text normalization, `intake_duration`, `outcome_is_alive` (from the explicit
column with `fillna(False)` when `hasAliveCol`, else from `LIVE_OUTCOMES`),
and the derived `Intake Year` / `Outcome Year` columns. -/
def normalizeRow (hasAliveCol : Bool) (r : RawRow) : Record :=
  { animalType := normalize_text r.animalType
    intakeType := normalize_text r.intakeType
    outcomeType := normalize_text r.outcomeType
    intakeDate := r.intakeDate
    outcomeDate := r.outcomeDate
    intake_duration := intake_duration_of r.intakeDate r.outcomeDate
    outcome_is_alive :=
      if hasAliveCol then r.outcome_is_alive.getD false
      else derive_is_alive (normalize_text r.outcomeType)
    intakeYear := r.intakeDate.map Date.year
    outcomeYear := r.outcomeDate.map Date.year }

/-- Synthetic animal type pool of `_generate_dummy_data`
("app_cross_filter_state_mamagement_plotly copy/data_loader.py" lines 34-36).
The source draws from this pool with numpy seeded by 42; the draws are numpy
library behavior outside this repository, so the model fixes a deterministic
assignment from the same pool.  The theorems rely only on the fallback's size,
its determinism and the fixed pools, never on which value an index receives. -/
def dummyAnimal (i : Nat) : String :=
  match i % 4 with
  | 0 => "DOG"
  | 1 => "CAT"
  | 2 => "BIRD"
  | _ => "OTHER"

/-- Synthetic intake type pool of `_generate_dummy_data` (lines 37-39); same
modeling caveat as `dummyAnimal`. -/
def dummyIntake (i : Nat) : String :=
  match i % 4 with
  | 0 => "STRAY"
  | 1 => "OWNER SURRENDER"
  | 2 => "PUBLIC ASSIST"
  | _ => "SEIZED"

/-- Synthetic outcome type pool of `_generate_dummy_data` (lines 40-44); same
modeling caveat as `dummyAnimal`. -/
def dummyOutcome (i : Nat) : String :=
  match i % 5 with
  | 0 => "ADOPTION"
  | 1 => "TRANSFER"
  | 2 => "RETURN TO OWNER"
  | 3 => "EUTHANASIA"
  | _ => "DIED"

/-- Synthetic intake date: `pd.date_range("2020-01-01", "2023-12-31", periods=n)`
(line 29), modeled as consecutive day numbers starting at the day number of
2020-01-01 with the matching year. -/
def dummyIntakeDate (i : Nat) : Date :=
  ⟨18262 + (i : Int), 2020 + ((i : Int) * 4) / 1000⟩

/-- Synthetic stay length: `np.random.randint(1, 60, n)` (line 30), a value in
1..59; same modeling caveat as `dummyAnimal`. -/
def dummyStay (i : Nat) : Int := 1 + ((i : Int) % 59)

/-- One row of `_generate_dummy_data` (lines 27-49): the dummy frame has no
`outcome_is_alive` column. -/
def dummyRow (i : Nat) : RawRow :=
  { animalType := some (dummyAnimal i)
    intakeType := some (dummyIntake i)
    outcomeType := some (dummyOutcome i)
    intakeDate := some (dummyIntakeDate i)
    outcomeDate := some ⟨(dummyIntakeDate i).days + dummyStay i, (dummyIntakeDate i).year⟩
    outcome_is_alive := none }

/-- `_generate_dummy_data(n=1000)` of
"app_cross_filter_state_mamagement_plotly copy/data_loader.py" lines 27-49. -/
def generate_dummy_data : List RawRow := (List.range 1000).map dummyRow

/-- `load_data` of "app_cross_filter_state_mamagement_plotly copy/data_loader.py"
lines 52-97.  The input is `none` when the CSV file is unavailable
(`FileNotFoundError`, replaced by the dummy frame, line 56) and otherwise the
parsed rows together with whether the `outcome_is_alive` column is present. -/
def load_data : Option (List RawRow × Bool) → List Record
  | none => generate_dummy_data.map (normalizeRow false)
  | some (rows, hasAliveCol) => rows.map (normalizeRow hasAliveCol)

/-- Missing-file branch of `load_data` in the sibling loader
"app_cross_filter_state_mamagement_plotly/data_loader.py" lines 12-16: on
`FileNotFoundError` it returns an empty DataFrame. -/
def load_data_v1_missing : List Record := []

/-- The five Dash stores ("app.py" lines 20-24): one selected value per
dimension, the string sentinel "All" meaning unconstrained. -/
structure SelectionState where
  species : String
  intake : String
  year : String
  status : String
  outcome : String
deriving DecidableEq

/-- The all-"All" state returned on reset ("app.py" lines 51-52). -/
def allAll : SelectionState := ⟨"All", "All", "All", "All", "All"⟩

/-- The five filter dimensions, one per chart/trigger branch of
`update_filters` ("app.py" lines 58-77). -/
inductive Dim
  | species
  | intake
  | year
  | status
  | outcome
deriving DecidableEq

/-- Read the store of one dimension. -/
def SelectionState.get (s : SelectionState) : Dim → String
  | .species => s.species
  | .intake => s.intake
  | .year => s.year
  | .status => s.status
  | .outcome => s.outcome

/-- Replace the value of the dimension named by string key `k`; an unknown key
changes nothing (spec-side apparatus for stating that ignored dimensions impose
no constraint). -/
def SelectionState.setKey (s : SelectionState) (k v : String) : SelectionState :=
  if k = "species" then { s with species := v }
  else if k = "intake" then { s with intake := v }
  else if k = "year" then { s with year := v }
  else if k = "status" then { s with status := v }
  else if k = "outcome" then { s with outcome := v }
  else s

/-- The `toggle` helper of `update_filters`
("app_cross_filter_state_mamagement_plotly/app.py" lines 55-56 and the copy
variant lines 70-71): clicking the current value clears to "All", anything
else replaces. -/
def toggle (newVal currentVal : String) : String :=
  if newVal = currentVal then "All" else newVal

/-- User interaction events: the reset button and a chart click carrying the
clicked dimension and the extracted point value (`none` when the click payload
has no value, copy variant app.py lines 74-76). -/
inductive Event
  | reset
  | chartClick (d : Dim) (v : Option String)

/-- The selection-update rule of `update_filters`
("app_cross_filter_state_mamagement_plotly copy/app.py" lines 48-108): reset
sets every store to "All"; a click with no value leaves the state unchanged; a
click with a value toggles exactly the clicked dimension's store. -/
def applyEvent : Event → SelectionState → SelectionState
  | .reset, _ => allAll
  | .chartClick d v, s =>
    match v with
    | none => s
    | some val =>
      match d with
      | .species => { s with species := toggle val s.species }
      | .intake => { s with intake := toggle val s.intake }
      | .year => { s with year := toggle val s.year }
      | .status => { s with status := toggle val s.status }
      | .outcome => { s with outcome := toggle val s.outcome }

/-- String-keyed embedding of `update_filters`
("app_cross_filter_state_mamagement_plotly copy/app.py" lines 61-108) keeping
the trigger-id dispatch: an unrecognized trigger id falls through to the final
line and returns the current stores unchanged. -/
def update_filters (trigger : String) (v : Option String) (s : SelectionState) :
    SelectionState :=
  if trigger = "btn-reset" then allAll
  else if trigger = "fig_species" then
    match v with
    | none => s
    | some val => { s with species := toggle val s.species }
  else if trigger = "fig_intake_type" then
    match v with
    | none => s
    | some val => { s with intake := toggle val s.intake }
  else if trigger = "fig_trend" then
    match v with
    | none => s
    | some val => { s with year := toggle val s.year }
  else if trigger = "fig_outcomes_percentage" then
    match v with
    | none => s
    | some val => { s with status := toggle val s.status }
  else if trigger = "fig_outcome_type" then
    match v with
    | none => s
    | some val => { s with outcome := toggle val s.outcome }
  else s

/-! Helper lemmas for the toggle rule. -/

theorem toggle_toggle (v cur : String) (h : cur = "All" ∨ cur = v) :
    toggle v (toggle v cur) = cur := by
  rcases h with h | h
  · subst h
    by_cases hv : v = "All" <;> simp [toggle, hv]
  · subst h
    by_cases hv : cur = "All" <;> simp [toggle, hv]

/-- Claim C1, counterexample: with species currently "DOG", clicking "CAT"
twice ends at "All", not back at "DOG", so the double-click involution fails
for a state whose clicked dimension holds a third value. -/
theorem toggle_involution_cex :
    applyEvent (.chartClick .species (some "CAT"))
        (applyEvent (.chartClick .species (some "CAT"))
          ⟨"DOG", "All", "All", "All", "All"⟩) ≠
      (⟨"DOG", "All", "All", "All", "All"⟩ : SelectionState) := by
  decide

/-- Claim C1, amended: applying `ChartClick(d, v)` twice returns to the
pre-click state `s` whenever dimension `d` currently reads "All" or already
reads `v`; (when it reads some third value, the double click leaves `d` at
"All" instead). -/
theorem toggle_involution_amended (d : Dim) (v : String) (s : SelectionState)
    (h : s.get d = "All" ∨ s.get d = v) :
    applyEvent (.chartClick d (some v)) (applyEvent (.chartClick d (some v)) s) = s := by
  obtain ⟨a, b, c, d0, e⟩ := s
  cases d <;> simp only [applyEvent, SelectionState.get] at h ⊢ <;>
    simp [toggle_toggle _ _ h]

/-- Claim C1, witness for the amended theorem at a concrete input. -/
theorem toggle_involution_amended_w :
    applyEvent (.chartClick .species (some "DOG"))
        (applyEvent (.chartClick .species (some "DOG")) allAll) = allAll :=
  toggle_involution_amended .species "DOG" allAll (Or.inl rfl)

/-- Claim C10: a `ChartClick` on dimension `d` (with or without a value)
returns every other dimension's store unchanged — each trigger branch of
`update_filters` passes the other four current values through. -/
theorem click_frame (d d' : Dim) (v : Option String) (s : SelectionState)
    (h : d' ≠ d) :
    (applyEvent (.chartClick d v) s).get d' = s.get d' := by
  cases v with
  | none => rfl
  | some val =>
    cases d <;> cases d' <;> first
      | rfl
      | exact absurd rfl h

/-- Claim C10, witness at a concrete input. -/
theorem click_frame_w :
    (applyEvent (.chartClick .species (some "CAT")) allAll).get .intake =
      allAll.get .intake :=
  click_frame .species .intake (some "CAT") allAll (by decide)

/-! The Filter Engine: `apply_filters` of
"app_cross_filter_state_mamagement_plotly copy/figures.py" lines 6-41 (the
same five conditional equality filters appear in `get_filtered_df`,
"app_cross_filter_state_mamagement_plotly/app.py" lines 109-122). -/

/-- One conditional filter step `if cond: d = d[d[col] == value]`. -/
def stepFilter (c : Prop) [Decidable c] (p : Record → Bool) (l : List Record) :
    List Record :=
  if c then l.filter p else l

/-- Digit value of a character, `none` for non-digits. -/
def digitVal (c : Char) : Option Nat :=
  if '0' ≤ c ∧ c ≤ '9' then some (c.toNat - '0'.toNat) else none

/-- Decimal value of a character list, `none` when empty or any non-digit. -/
def digitsVal (l : List Char) : Option Nat :=
  if l.isEmpty then none
  else
    l.foldl
      (fun acc c =>
        match acc, digitVal c with
        | some n, some d => some (n * 10 + d)
        | _, _ => none)
      (some 0)

/-- Behavioral model of Python `int(str)` as applied to the year selection in
`apply_filters` (copy figures.py line 28): an optional sign followed by
digits; anything else raises, which the surrounding `try` turns into `none`
here. -/
def parseYear (s : String) : Option Int :=
  match s.data with
  | '-' :: rest => (digitsVal rest).map fun n => -(n : Int)
  | l => (digitsVal l).map fun n => (n : Int)

/-- The year step of `apply_filters` (copy figures.py lines 26-32): parse the
selected year with `int(...)`; on success keep rows whose `Intake Year` equals
it, on failure do nothing rather than crash. -/
def yearFilter (c : Prop) [Decidable c] (sy : String) (l : List Record) :
    List Record :=
  if c then
    match parseYear sy with
    | some y => l.filter fun r => r.intakeYear == some y
    | none => l
  else l

/-- `apply_filters(df, selections, ignore_dims)` of
"app_cross_filter_state_mamagement_plotly copy/figures.py" lines 6-41: for
each of the five dimensions, when its string key is not in `ignore_dims` and
its selection is not "All", keep only the rows matching the selection; the
`status` step compares `outcome_is_alive` against
`True if sel_status == "Live" else False` (line 35). -/
def apply_filters (df : List Record) (sel : SelectionState) (ignore : List String) :
    List Record :=
  let d := df
  let d := stepFilter ("species" ∉ ignore ∧ sel.species ≠ "All")
    (fun r => r.animalType == sel.species) d
  let d := stepFilter ("intake" ∉ ignore ∧ sel.intake ≠ "All")
    (fun r => r.intakeType == sel.intake) d
  let d := yearFilter ("year" ∉ ignore ∧ sel.year ≠ "All") sel.year d
  let d := stepFilter ("status" ∉ ignore ∧ sel.status ≠ "All")
    (fun r => r.outcome_is_alive == (if sel.status = "Live" then true else false)) d
  let d := stepFilter ("outcome" ∉ ignore ∧ sel.outcome ≠ "All")
    (fun r => r.outcomeType == sel.outcome) d
  d

theorem mem_stepFilter (c : Prop) [Decidable c] (p : Record → Bool)
    (l : List Record) (r : Record) :
    r ∈ stepFilter c p l ↔ r ∈ l ∧ (c → p r = true) := by
  unfold stepFilter
  by_cases h : c <;> simp [h, List.mem_filter]

theorem mem_yearFilter (c : Prop) [Decidable c] (sy : String) (l : List Record)
    (r : Record) :
    r ∈ yearFilter c sy l ↔
      r ∈ l ∧ (c → ∀ y : Int, parseYear sy = some y → r.intakeYear = some y) := by
  unfold yearFilter
  by_cases h : c
  · cases hp : parseYear sy <;> simp [h, hp, List.mem_filter]
  · simp [h]

/-- Claim C2: every record surviving `apply_filters` comes from the input and
satisfies the equality predicate of each dimension that is not ignored and not
"All" (species on `Animal Type`, intake on `Intake Type`, the parsed year on
`Intake Year`, status "Live"/other on `outcome_is_alive`, outcome on
`Outcome Type`); and a dimension key in `ignore_dims` imposes no constraint:
replacing its selected value by anything leaves the result unchanged. -/
theorem filter_sound (D : List Record) (sel : SelectionState) (ignore : List String) :
    (∀ r ∈ apply_filters D sel ignore,
      r ∈ D ∧
      ("species" ∉ ignore → sel.species ≠ "All" → r.animalType = sel.species) ∧
      ("intake" ∉ ignore → sel.intake ≠ "All" → r.intakeType = sel.intake) ∧
      ("year" ∉ ignore → sel.year ≠ "All" →
        ∀ y : Int, parseYear sel.year = some y → r.intakeYear = some y) ∧
      ("status" ∉ ignore → sel.status ≠ "All" →
        r.outcome_is_alive = (if sel.status = "Live" then true else false)) ∧
      ("outcome" ∉ ignore → sel.outcome ≠ "All" → r.outcomeType = sel.outcome)) ∧
    (∀ k ∈ ignore, ∀ v : String,
      apply_filters D (sel.setKey k v) ignore = apply_filters D sel ignore) := by
  constructor
  · intro r hr
    simp only [apply_filters] at hr
    rw [mem_stepFilter] at hr
    obtain ⟨hr, h5⟩ := hr
    rw [mem_stepFilter] at hr
    obtain ⟨hr, h4⟩ := hr
    rw [mem_yearFilter] at hr
    obtain ⟨hr, h3⟩ := hr
    rw [mem_stepFilter] at hr
    obtain ⟨hr, h2⟩ := hr
    rw [mem_stepFilter] at hr
    obtain ⟨hr, h1⟩ := hr
    refine ⟨hr, ?_, ?_, ?_, ?_, ?_⟩
    · intro ha hb
      simpa using h1 ⟨ha, hb⟩
    · intro ha hb
      simpa using h2 ⟨ha, hb⟩
    · intro ha hb
      exact h3 ⟨ha, hb⟩
    · intro ha hb
      simpa using h4 ⟨ha, hb⟩
    · intro ha hb
      simpa using h5 ⟨ha, hb⟩
  · intro k hk v
    by_cases h1 : k = "species"
    · subst h1
      have hsp : ¬ ("species" ∉ ignore) := fun h => h hk
      simp [apply_filters, SelectionState.setKey, stepFilter, yearFilter, hsp]
    · by_cases h2 : k = "intake"
      · subst h2
        have hsp : ¬ ("intake" ∉ ignore) := fun h => h hk
        simp [apply_filters, SelectionState.setKey, stepFilter, yearFilter, hsp, h1]
      · by_cases h3 : k = "year"
        · subst h3
          have hsp : ¬ ("year" ∉ ignore) := fun h => h hk
          simp [apply_filters, SelectionState.setKey, stepFilter, yearFilter, hsp, h1, h2]
        · by_cases h4 : k = "status"
          · subst h4
            have hsp : ¬ ("status" ∉ ignore) := fun h => h hk
            simp [apply_filters, SelectionState.setKey, stepFilter, yearFilter, hsp, h1, h2, h3]
          · by_cases h5 : k = "outcome"
            · subst h5
              have hsp : ¬ ("outcome" ∉ ignore) := fun h => h hk
              simp [apply_filters, SelectionState.setKey, stepFilter, yearFilter, hsp, h1, h2, h3, h4]
            · simp [SelectionState.setKey, h1, h2, h3, h4, h5]

/-- A sample normalized record used to instantiate the quantified theorems. -/
def wRec : Record :=
  { animalType := "DOG"
    intakeType := "STRAY"
    outcomeType := "ADOPTION"
    intakeDate := some ⟨100, 2021⟩
    outcomeDate := some ⟨105, 2021⟩
    intake_duration := 5
    outcome_is_alive := true
    intakeYear := some 2021
    outcomeYear := some 2021 }

/-- The selection used to instantiate the quantified theorems. -/
def wSel : SelectionState := ⟨"DOG", "All", "2021", "All", "All"⟩

/-- Claim C2, witness: instantiating `filter_sound` at a one-record dataset
with species selected "DOG" yields the species predicate for the surviving
record. -/
theorem filter_sound_w : wRec.animalType = wSel.species :=
  ((((filter_sound [wRec] wSel ["status"]).1 wRec (by decide)).2).1)
    (by decide) (by decide)

/-- Claim C9, counterexample: a misspelled dimension name in `ignore_dims` does
not fail fast — `apply_filters` silently treats it as naming no dimension (the
species filter still applies), and an unknown trigger id in `update_filters`
silently returns the stores unchanged; with the name spelled correctly the
species filter would have been skipped. -/
theorem invalid_dim_cex :
    apply_filters [wRec] ⟨"CAT", "All", "All", "All", "All"⟩ ["speciess"] =
      apply_filters [wRec] ⟨"CAT", "All", "All", "All", "All"⟩ [] ∧
    apply_filters [wRec] ⟨"CAT", "All", "All", "All", "All"⟩ ["species"] = [wRec] ∧
    update_filters "fig_speciess" (some "CAT") allAll = allAll := by
  refine ⟨?_, ?_, ?_⟩ <;> decide

/-- Claim C9, amended: an invalid dimension name is a silent no-op, not a
fail-fast error — prepending a string that names none of the five dimensions
to `ignore_dims` never changes the result of `apply_filters`, and an
unrecognized trigger id makes `update_filters` return the current state
unchanged; no error condition propagates to the caller. -/
theorem invalid_dim_silent (D : List Record) (sel : SelectionState)
    (ignore : List String) (k : String)
    (hk : k ∉ ["species", "intake", "year", "status", "outcome"])
    (trigger : String)
    (ht : trigger ∉ ["btn-reset", "fig_species", "fig_intake_type", "fig_trend",
      "fig_outcomes_percentage", "fig_outcome_type"])
    (v : Option String) :
    apply_filters D sel (k :: ignore) = apply_filters D sel ignore ∧
    update_filters trigger v sel = sel := by
  simp only [List.mem_cons, List.mem_singleton, not_or] at hk ht
  obtain ⟨hk1, hk2, hk3, hk4, hk5, -⟩ := hk
  obtain ⟨ht1, ht2, ht3, ht4, ht5, ht6, -⟩ := ht
  constructor
  · have e1 : ("species" ∈ k :: ignore) ↔ "species" ∈ ignore := by
      rw [List.mem_cons]
      exact or_iff_right fun h => hk1 h.symm
    have e2 : ("intake" ∈ k :: ignore) ↔ "intake" ∈ ignore := by
      rw [List.mem_cons]
      exact or_iff_right fun h => hk2 h.symm
    have e3 : ("year" ∈ k :: ignore) ↔ "year" ∈ ignore := by
      rw [List.mem_cons]
      exact or_iff_right fun h => hk3 h.symm
    have e4 : ("status" ∈ k :: ignore) ↔ "status" ∈ ignore := by
      rw [List.mem_cons]
      exact or_iff_right fun h => hk4 h.symm
    have e5 : ("outcome" ∈ k :: ignore) ↔ "outcome" ∈ ignore := by
      rw [List.mem_cons]
      exact or_iff_right fun h => hk5 h.symm
    simp only [apply_filters, e1, e2, e3, e4, e5]
  · simp [update_filters, ht1, ht2, ht3, ht4, ht5, ht6]

/-- Claim C9, witness for the amended theorem at concrete invalid names. -/
theorem invalid_dim_silent_w :
    apply_filters [wRec] allAll ["speciess"] = apply_filters [wRec] allAll [] ∧
    update_filters "bogus" none allAll = allAll :=
  invalid_dim_silent [wRec] allAll [] "speciess" (by decide) "bogus" (by decide) none

/-! The Aggregator: `get_kpis` of
"app_cross_filter_state_mamagement_plotly copy/figures.py" lines 44-62 (the
same formulas appear inline in `update_ui`,
"app_cross_filter_state_mamagement_plotly/app.py" lines 125-133).  The source
returns formatted strings; the model keeps the numeric values the strings
render. -/

/-- The KPI quintuple of `get_kpis`: total intakes, total outcomes, average
length of stay, total adoptions, live release rate. -/
structure KPIRecord where
  intakes : Nat
  outcomes : Nat
  los : Rat
  adoptions : Nat
  lrr : Rat
deriving DecidableEq

/-- `get_kpis(df)` (copy figures.py lines 44-62): an empty frame short-circuits
to all zeros (line 46); otherwise intakes = row count, outcomes = count of
non-null `Outcome Date`, average stay = mean of `intake_duration`, adoptions =
rows with `Outcome Type == "ADOPTION"`, live release rate = live outcomes /
total outcomes * 100 guarded by `total_outcomes > 0`. -/
def get_kpis (df : List Record) : KPIRecord :=
  if df.isEmpty then ⟨0, 0, 0, 0, 0⟩
  else
    let total_intakes := df.length
    let total_outcomes := (df.filter fun r => r.outcomeDate.isSome).length
    let avg_los : Rat :=
      if 0 < total_intakes then
        ((df.map fun r => r.intake_duration).sum : Rat) / (total_intakes : Rat)
      else 0
    let total_adoptions := (df.filter fun r => r.outcomeType == "ADOPTION").length
    let total_live := (df.filter fun r => r.outcome_is_alive).length
    let lrr : Rat :=
      if 0 < total_outcomes then
        ((total_live : Rat) / (total_outcomes : Rat)) * 100
      else 0
    ⟨total_intakes, total_outcomes, avg_los, total_adoptions, lrr⟩

/-- Claim C3: `get_kpis` on the empty subset is the all-zero KPI record —
counts 0, average stay 0, live release rate 0 — with no division performed
and no error path. -/
theorem summarize_empty_zero :
    get_kpis [] = { intakes := 0, outcomes := 0, los := 0, adoptions := 0, lrr := 0 } :=
  rfl

/-- Claim C5: for every row subset, the live-release-rate KPI equals the count
of live outcomes divided by the count of rows with a non-null outcome date,
times 100, and equals 0 when that outcome count is 0 (including the empty
subset). -/
theorem lrr_formula (df : List Record) :
    (get_kpis df).lrr =
      if 0 < (df.filter fun r => r.outcomeDate.isSome).length then
        (((df.filter fun r => r.outcome_is_alive).length : Rat) /
            ((df.filter fun r => r.outcomeDate.isSome).length : Rat)) * 100
      else 0 := by
  cases df with
  | nil => rfl
  | cons a l => rfl

/-- A raw CSV row with outcome type "RTOS" and no explicit `outcome_is_alive`
column, the input deciding claim C4. -/
def rawRTOS : RawRow :=
  { animalType := some "DOG"
    intakeType := some "STRAY"
    outcomeType := some "RTOS"
    intakeDate := some ⟨0, 2020⟩
    outcomeDate := some ⟨3, 2020⟩
    outcome_is_alive := none }

/-- Claim C4, evaluation at the deciding input: the copy-variant loader derives
`outcome_is_alive = True` for "RTOS" (and `False` for "EUTHANASIA") via
`LIVE_OUTCOMES`, but the sibling loader
"app_cross_filter_state_mamagement_plotly/data_loader.py" sets the column to
`False` for every record when it is absent from the CSV, classifying "RTOS" as
non-live. -/
theorem live_outcome_eval :
    ((load_data (some ([rawRTOS], false))).map fun r => r.outcome_is_alive) = [true] ∧
    derive_is_alive "EUTHANASIA" = false ∧
    derive_is_alive_v1 "RTOS" = false := by
  refine ⟨?_, rfl, rfl⟩
  rfl

/-- Claim C6, evaluation at the deciding input (intake day 10, outcome day 5):
the copy-variant loader clamps the negative difference to 0 as the spec states,
but the top-level script's loader yields -5 (no clamp), and the static-variant
loader leaves the duration null when the outcome date is missing instead of 0. -/
theorem stay_duration_eval :
    intake_duration_of (some ⟨10, 2021⟩) (some ⟨5, 2021⟩) = 0 ∧
    (normalizeRow false
        { animalType := some "DOG"
          intakeType := some "STRAY"
          outcomeType := some "ADOPTION"
          intakeDate := some ⟨10, 2021⟩
          outcomeDate := some ⟨5, 2021⟩
          outcome_is_alive := none }).intake_duration = 0 ∧
    intake_duration_main (some ⟨10, 2021⟩) (some ⟨5, 2021⟩) = -5 ∧
    intake_duration_static (some ⟨10, 2021⟩) none = none := by
  refine ⟨rfl, ?_, rfl, rfl⟩
  rfl

/-- Claim C7, counterexample: the fallback result carries no flag or
provenance marker — a readable CSV whose rows equal the synthetic rows yields
a value identical to the missing-file fallback, so the caller cannot
distinguish them; and the sibling loader
("app_cross_filter_state_mamagement_plotly/data_loader.py" lines 12-16) hands
the caller an empty dataset when the file is missing instead of a synthetic
one. -/
theorem fallback_no_marker_cex :
    load_data (some (generate_dummy_data, false)) = load_data none ∧
    load_data_v1_missing = [] :=
  ⟨rfl, rfl⟩

/-- Claim C7, amended: when the source file is unavailable the copy-variant
loader deterministically substitutes a synthetic dataset of fixed size 1000
whose category fields come from the fixed pools, so its caller never observes
an empty dataset; but the fallback carries no flag or provenance marker, and
the sibling loader returns an empty dataset instead. -/
theorem fallback_deterministic :
    (load_data none).length = 1000 ∧
    load_data none ≠ [] ∧
    ∀ r ∈ load_data none,
      r.animalType ∈ ["DOG", "CAT", "BIRD", "OTHER"] ∧
      r.intakeType ∈ ["STRAY", "OWNER SURRENDER", "PUBLIC ASSIST", "SEIZED"] ∧
      r.outcomeType ∈ ["ADOPTION", "TRANSFER", "RETURN TO OWNER", "EUTHANASIA", "DIED"] := by
  have hlen : (load_data none).length = 1000 := by
    simp [load_data, generate_dummy_data]
  refine ⟨hlen, ?_, ?_⟩
  · intro h
    rw [h] at hlen
    simp at hlen
  · intro r hr
    simp only [load_data, generate_dummy_data, List.map_map, List.mem_map,
      List.mem_range] at hr
    obtain ⟨i, -, hi⟩ := hr
    subst hi
    simp only [Function.comp_apply, normalizeRow, dummyRow]
    refine ⟨?_, ?_, ?_⟩
    · have h4 : i % 4 < 4 := Nat.mod_lt _ (by norm_num)
      unfold dummyAnimal
      interval_cases h : i % 4 <;> simp [normalize_text, stripString, stripChars, UNKNOWN]
    · have h4 : i % 4 < 4 := Nat.mod_lt _ (by norm_num)
      unfold dummyIntake
      interval_cases h : i % 4 <;> simp [normalize_text, stripString, stripChars, UNKNOWN]
    · have h5 : i % 5 < 5 := Nat.mod_lt _ (by norm_num)
      unfold dummyOutcome
      interval_cases h : i % 5 <;> simp [normalize_text, stripString, stripChars, UNKNOWN]

/-- Claim C7, witness for the amended theorem: the first synthetic record's
animal type lies in the fixed pool. -/
theorem fallback_deterministic_w :
    (normalizeRow false (dummyRow 0)).animalType ∈ ["DOG", "CAT", "BIRD", "OTHER"] :=
  (fallback_deterministic.2.2 (normalizeRow false (dummyRow 0))
    (List.mem_map_of_mem _ (List.mem_map_of_mem _ (List.mem_range.mpr (by norm_num))))).1

/-! `value_counts`: the grouped-count operation behind the chart figures
(`df[col].value_counts()`, e.g. `create_species_pie` in
"app_cross_filter_state_mamagement_plotly/figures.py" lines 9-24 and
`create_outcome_bar` in the copy variant's figures.py lines 183-203): count
each distinct value and order by descending count. -/

/-- The distinct values of a list in first-encountered order. -/
def uniqueInOrder (l : List String) : List String :=
  match l with
  | [] => []
  | x :: xs => x :: uniqueInOrder (xs.filter fun y => !(y == x))
termination_by l.length
decreasing_by
  simp only [List.length_cons]
  exact Nat.lt_succ_of_le (List.length_filter_le _ _)

/-- `series.value_counts()`: pairs of distinct value and its multiplicity,
sorted by descending count (a stable sort, so ties keep first-encountered
order). -/
def value_counts (l : List String) : List (String × Nat) :=
  ((uniqueInOrder l).map fun c => (c, (l.filter fun y => y == c).length)).mergeSort
    fun a b => decide (b.2 ≤ a.2)

/-- The three categorical chart dimensions the figures group on. -/
inductive CatDim
  | species
  | intakeType
  | outcomeType
deriving DecidableEq

/-- The column each categorical chart dimension reads. -/
def CatDim.proj : CatDim → Record → String
  | .species => fun r => r.animalType
  | .intakeType => fun r => r.intakeType
  | .outcomeType => fun r => r.outcomeType

/-- `groupCounts(subset, dimension)`: `value_counts` of the dimension's
column over the subset. -/
def groupCounts (df : List Record) (dim : CatDim) : List (String × Nat) :=
  value_counts (df.map dim.proj)

theorem length_filter_partition (p : String → Bool) (l : List String) :
    (l.filter p).length + (l.filter fun a => !(p a)).length = l.length := by
  induction l with
  | nil => rfl
  | cons a l ih =>
    by_cases h : p a <;> simp [List.filter_cons, h] <;> omega

theorem mem_of_mem_uniqueInOrder (a : String) (l : List String) :
    a ∈ uniqueInOrder l → a ∈ l := by
  induction l using uniqueInOrder.induct with
  | case1 => intro h; simp [uniqueInOrder] at h
  | case2 x xs ih =>
    intro h
    simp only [uniqueInOrder] at h
    rcases List.mem_cons.mp h with h1 | h2
    · exact h1 ▸ List.mem_cons_self _ _
    · exact List.mem_cons_of_mem _ (List.mem_of_mem_filter (ih h2))

theorem sum_counts_eq_length (l : List String) :
    ((uniqueInOrder l).map fun c => (l.filter fun y => y == c).length).sum = l.length := by
  induction l using uniqueInOrder.induct with
  | case1 => simp [uniqueInOrder]
  | case2 x xs ih =>
    simp only [uniqueInOrder, List.map_cons, List.sum_cons]
    have hx : ((x :: xs).filter fun y => y == x).length =
        (xs.filter fun y => y == x).length + 1 := by
      simp [List.filter_cons]
    have hcongr :
        ((uniqueInOrder (xs.filter fun y => !(y == x))).map
          fun c => ((x :: xs).filter fun y => y == c).length) =
        ((uniqueInOrder (xs.filter fun y => !(y == x))).map
          fun c => ((xs.filter fun y => !(y == x)).filter fun y => y == c).length) := by
      apply List.map_congr_left
      intro c hc
      have hcx : (c == x) = false := by
        simpa using List.of_mem_filter (mem_of_mem_uniqueInOrder c _ hc)
      have hne : c ≠ x := by
        simpa using hcx
      have hx2 : (x == c) = false := by
        simpa using hne.symm
      rw [List.filter_cons]
      simp only [hx2, if_false, Bool.false_eq_true]
      rw [List.filter_filter]
      congr 1
      apply List.filter_congr
      intro b _
      by_cases hbc : b = c
      · subst hbc
        simp [hcx]
      · simp [hbc]
    rw [hcongr, ih, hx]
    have hpart := length_filter_partition (fun y => y == x) xs
    simp only [List.length_cons]
    omega

theorem value_counts_sorted (l : List String) :
    List.Pairwise (fun a b : String × Nat => b.2 ≤ a.2) (value_counts l) := by
  have h := @List.sorted_mergeSort (String × Nat) (fun a b => decide (b.2 ≤ a.2))
    (fun a b c h1 h2 => by
      simp only [decide_eq_true_eq] at *
      omega)
    (fun a b => by
      simp only [Bool.or_eq_true, decide_eq_true_eq]
      omega)
    ((uniqueInOrder l).map fun c => (c, (l.filter fun y => y == c).length))
  unfold value_counts
  exact h.imp fun hab => by simpa using hab

theorem sum_value_counts (l : List String) :
    ((value_counts l).map Prod.snd).sum = l.length := by
  unfold value_counts
  have hperm := List.mergeSort_perm
    ((uniqueInOrder l).map fun c => (c, (l.filter fun y => y == c).length))
    (fun a b : String × Nat => decide (b.2 ≤ a.2))
  have hsum := (hperm.map Prod.snd).sum_eq
  rw [hsum, List.map_map]
  simpa [Function.comp] using sum_counts_eq_length l

/-- Claim C8: for every row subset and categorical dimension, `groupCounts`
returns (category, count) pairs in descending order of count, and the counts
sum to the number of records in the subset. -/
theorem groupCounts_sorted_sum (df : List Record) (dim : CatDim) :
    List.Pairwise (fun a b : String × Nat => b.2 ≤ a.2) (groupCounts df dim) ∧
    ((groupCounts df dim).map Prod.snd).sum = df.length := by
  refine ⟨value_counts_sorted _, ?_⟩
  unfold groupCounts
  rw [sum_value_counts, List.length_map]
